import Mathlib

/-!
# fb-rotate

A shallow embedding of `fb-rotate.c`, the command-line tool that lists
displays, makes a display the main one and asks a display's graphics service
for a rotation.

The program is a sequence of calls into the display services of the host.  The
embedding reads the answers of those services from a `Platform` record and
records what the program does to the outside world as a list of `Event`s,
followed by the way the run ends (`Res`): a returned value, `exit(status)`, or
`undefined` when the C code indexes a table outside its bounds or converts a
`double` to an `int` that cannot hold it.

Conventions.
* `CGDirectDisplayID`, `uint32_t` and `IOOptionBits` are naturals below `2^32`.
* `long`, `int` and `CGDisplayErr` are integers; `/` and `%` of C are
  `Int.tdiv` and `Int.tmod` (truncation toward zero).
* Display origins and the rotation angle reach the program as `double`s.  The
  record holds them as integers: `minX d`, `minY d` are the values of
  `CGRectGetMinX(CGDisplayBounds(d))`, `CGRectGetMinY(CGDisplayBounds(d))` for
  displays placed at integral coordinates, and `rotation d` is the value of
  `CGDisplayRotation(d)` after its conversion to `long`.  The conversions of
  `setMainDisplay` from `double` to `int` and `int32_t` are explicit
  (`doubleToInt`): the value when it lies in the 32-bit range, no meaning
  otherwise.
* The record is one snapshot: the display services give the same answers
  throughout a run.
* `getopt` and `strtoul`/`strtol` belong to the C library: the options arrive
  already split (`Opt`), each argument already converted.
-/

namespace FbRotate

/-! ## Constants -/

/-- Line 11, `#define MAX_DISPLAYS 16`. -/
def MAX_DISPLAYS : Nat := 16

/-- Lines 17-19, `kIOFBSetTransform = 0x00000400`. -/
def kIOFBSetTransform : Nat := 0x00000400

/-- The success status `kCGErrorSuccess` of the CoreGraphics calls. -/
def kCGErrorSuccess : Int := 0

/-- The least value of the 32-bit types `int` and `int32_t`. -/
def INT_MIN : Int := -2147483648

/-- The greatest value of the 32-bit types `int` and `int32_t`. -/
def INT_MAX : Int := 2147483647

/-- The four `kIOScaleRotate*` constants of `<IOKit/graphics/IOGraphicsTypes.h>`.
The header is not part of the repository, so the constants are a parameter of
`angle2options`. -/
structure ScaleRotate where
  kIOScaleRotate0 : Nat
  kIOScaleRotate90 : Nat
  kIOScaleRotate180 : Nat
  kIOScaleRotate270 : Nat

/-- The values the IOGraphics header gives the four constants
(`0`, `kIOScaleSwapAxes | kIOScaleInvertX`, `kIOScaleInvertX | kIOScaleInvertY`,
`kIOScaleSwapAxes | kIOScaleInvertY`); used as a concrete instance only. -/
def ioGraphicsScale : ScaleRotate :=
  { kIOScaleRotate0 := 0x00, kIOScaleRotate90 := 0x30,
    kIOScaleRotate180 := 0x60, kIOScaleRotate270 := 0x50 }

/-! ## The platform and the observable behaviour -/

/-- What the display services answer during one run of the program. -/
structure Platform where
  /-- The call `CGMainDisplayID()`. -/
  mainDisplay : Nat
  /-- The displays `CGGetOnlineDisplayList` has to report, in its order. -/
  online : List Nat
  /-- The status `CGGetOnlineDisplayList` returns. -/
  onlineErr : Int
  /-- The call `CGDisplayIsBuiltin(d)`. -/
  builtin : Nat → Bool
  /-- The call `CGDisplayIsActive(d)`. -/
  active : Nat → Bool
  /-- The call `CGRectGetMinX(CGDisplayBounds(d))`. -/
  minX : Nat → Int
  /-- The call `CGRectGetMinY(CGDisplayBounds(d))`. -/
  minY : Nat → Int
  /-- The call `CGDisplayRotation(d)`, converted to `long`. -/
  rotation : Nat → Int
  /-- The status `CGBeginDisplayConfiguration` returns. -/
  beginErr : Int
  /-- The status `CGConfigureDisplayOrigin(config, d, x, y)` returns. -/
  originErr : Nat → Int → Int → Int
  /-- The status `CGCompleteDisplayConfiguration` returns. -/
  completeErr : Int
  /-- The status `IOServiceRequestProbe` returns for the service port of
  display `d` and the given options. -/
  probeErr : Nat → Nat → Int

/-- The lines the program writes to standard error. -/
inductive Diag where
  /-- The usage text of lines 22-39. -/
  | usage
  /-- The line `"CGGetOnlineDisplayList: error %d.\n"`. -/
  | onlineListError (dErr : Int)
  /-- The line `"No such display ID: 0x%-10x.\n"`. -/
  | noSuchDisplay (targetDisplay : Nat)
  /-- The line `"Could not find an active monitor besides the internal one.\n"`. -/
  | noActiveMonitor
  /-- The line `" Could not find a matching id in onlineDisplays!\n"`. -/
  | noMatchingId
  /-- The line `"IOServiceRequestProbe: error %d\n"`. -/
  | probeError (dErr : Int)
deriving DecidableEq, Repr

/-- The lines the program writes to standard output; the fixed-width
formatting of a row is not modelled, a row is identified by its display. -/
inductive Out where
  | listHeader
  | listRow (dID : Nat) (isActive isMain isBuiltin : Bool)
  | infoHeader
  | infoRow (dID : Nat) (minX minY : Int) (angle : Int) (isActive isMain isBuiltin : Bool)
  | infoRule (last : Bool)
  | cursorPosition
deriving DecidableEq, Repr

/-- What a run does to the outside world, in order. -/
inductive Event where
  | CGGetOnlineDisplayList
  | CGBeginDisplayConfiguration
  | CGConfigureDisplayOrigin (dID : Nat) (x y : Int)
  | CGCompleteDisplayConfiguration
  | CGDisplayIOServicePort (dID : Nat)
  | IOServiceRequestProbe (dID : Nat) (options : Nat)
  | stderr (line : Diag)
  | stdout (line : Out)
deriving DecidableEq, Repr

/-- How a piece of the program ends. -/
inductive Res (α : Type) where
  /-- It returns to its caller. -/
  | ret (a : α)
  /-- It calls `exit(status)`. -/
  | exit (status : Nat)
  /-- It reads outside an array or converts a `double` to an integer type
  that cannot hold it: the C standard gives the run no meaning. -/
  | undefined
deriving DecidableEq, Repr

/-- A run: the events so far and how it ended. -/
structure Run (α : Type) where
  trace : List Event
  res : Res α
deriving DecidableEq, Repr

/-- Returning a value does nothing observable. -/
def Run.pure {α : Type} (a : α) : Run α := ⟨[], .ret a⟩

/-- Sequencing: what follows runs only when the first part returned. -/
def Run.bind {α β : Type} (m : Run α) (f : α → Run β) : Run β :=
  match m.res with
  | .ret a => ⟨m.trace ++ (f a).trace, (f a).res⟩
  | .exit status => ⟨m.trace, .exit status⟩
  | .undefined => ⟨m.trace, .undefined⟩

instance : Monad Run where
  pure := Run.pure
  bind := Run.bind

/-- One observable event. -/
def emit (e : Event) : Run Unit := ⟨[e], .ret ()⟩

/-- The call `exit(status)`. -/
def exit {α : Type} (status : Nat) : Run α := ⟨[], .exit status⟩

/-- An out-of-bounds read or an out-of-range conversion. -/
def undefinedBehaviour {α : Type} : Run α := ⟨[], .undefined⟩

/-- The conversion of a `double` with the integral value `x` to `int` or
`int32_t`: `x` itself when `INT_MIN ≤ x ≤ INT_MAX`, undefined otherwise. -/
def doubleToInt (x : Int) : Run Int :=
  if INT_MIN ≤ x ∧ x ≤ INT_MAX then pure x else undefinedBehaviour

/-- The call `CGGetOnlineDisplayList(maxDisplays, onlineDisplays, &displayCount)`: the
status, and the at most `maxDisplays` displays written to the array. -/
def CGGetOnlineDisplayList (p : Platform) (maxDisplays : Nat) : Run (Int × List Nat) :=
  ⟨[.CGGetOnlineDisplayList], .ret (p.onlineErr, p.online.take maxDisplays)⟩

/-- The call `CGBeginDisplayConfiguration(&config)`. -/
def CGBeginDisplayConfiguration (p : Platform) : Run Int :=
  ⟨[.CGBeginDisplayConfiguration], .ret p.beginErr⟩

/-- The call `CGConfigureDisplayOrigin(config, dID, x, y)`. -/
def CGConfigureDisplayOrigin (p : Platform) (dID : Nat) (x y : Int) : Run Int :=
  ⟨[.CGConfigureDisplayOrigin dID x y], .ret (p.originErr dID x y)⟩

/-- The call `CGCompleteDisplayConfiguration(config, kCGConfigureForSession)`. -/
def CGCompleteDisplayConfiguration (p : Platform) : Run Int :=
  ⟨[.CGCompleteDisplayConfiguration], .ret p.completeErr⟩

/-- The call `CGDisplayIOServicePort(dID)`; the port is identified by its display. -/
def CGDisplayIOServicePort (dID : Nat) : Run Nat :=
  ⟨[.CGDisplayIOServicePort dID], .ret dID⟩

/-- The call `IOServiceRequestProbe(service, options)`. -/
def IOServiceRequestProbe (p : Platform) (service options : Nat) : Run Int :=
  ⟨[.IOServiceRequestProbe service options], .ret (p.probeErr service options)⟩

/-- The displays a successful enumeration hands to the program
(`CGGetOnlineDisplayList` with the buffer of `MAX_DISPLAYS` entries). -/
def enumerated (p : Platform) : List Nat := p.online.take MAX_DISPLAYS

/-! ## The program

A branch that ends in `exit` never falls through, so the code that follows
such an `if` is written as its `else` branch. -/

/-- Lines 22-42, `usage`: print the usage text and `exit(1)`. -/
def usage : Run Unit := do
  emit (.stderr .usage)
  exit 1

/-- Lines 64-78, the loop of `listDisplays`. -/
def listDisplays_loop (p : Platform) (mainDisplay : Nat) : List Nat → Run Unit
  | [] => pure ()
  | dID :: rest => do
      emit (.stdout (.listRow dID (p.active dID) (dID == mainDisplay) (p.builtin dID)))
      listDisplays_loop p mainDisplay rest

/-- Lines 44-81, `listDisplays`. -/
def listDisplays (p : Platform) : Run Unit := do
  let mainDisplay := p.mainDisplay
  let enumeration ← CGGetOnlineDisplayList p MAX_DISPLAYS
  let dErr := enumeration.1
  let onlineDisplays := enumeration.2
  if dErr ≠ kCGErrorSuccess then do
    emit (.stderr (.onlineListError dErr))
    exit 1
  else do
    emit (.stdout .listHeader)
    listDisplays_loop p mainDisplay onlineDisplays
    exit 0

/-- Lines 108-133, the loop of `infoDisplays`. -/
def infoDisplays_loop (p : Platform) (mainDisplay : Nat) : List Nat → Run Unit
  | [] => pure ()
  | dID :: rest => do
      emit (.stdout (.infoRow dID (p.minX dID) (p.minY dID) (p.rotation dID)
        (p.active dID) (dID == mainDisplay) (p.builtin dID)))
      emit (.stdout (.infoRule rest.isEmpty))
      infoDisplays_loop p mainDisplay rest

/-- Lines 83-138, `infoDisplays`. -/
def infoDisplays (p : Platform) : Run Unit := do
  let mainDisplay := p.mainDisplay
  let enumeration ← CGGetOnlineDisplayList p MAX_DISPLAYS
  let dErr := enumeration.1
  let onlineDisplays := enumeration.2
  if dErr ≠ kCGErrorSuccess then do
    emit (.stderr (.onlineListError dErr))
    exit 1
  else do
    emit (.stdout .infoHeader)
    infoDisplays_loop p mainDisplay onlineDisplays
    emit (.stdout .cursorPosition)
    exit 0

/-- Lines 164-167 of `setMainDisplay`: the loop that sets `flag` to 1 when
`targetDisplay` is one of the enumerated displays. -/
def setMainDisplay_flag (targetDisplay : Nat) : List Nat → Int → Int
  | [], flag => flag
  | dID :: rest, flag =>
      setMainDisplay_flag targetDisplay rest (if dID = targetDisplay then 1 else flag)

/-- Lines 179-183 of `setMainDisplay`: one `CGConfigureDisplayOrigin` per
enumerated display, its status ignored.  The two sums are `double`s (a
`double` plus the `int` delta) and are converted to the `int32_t` parameters
of the call. -/
def setMainDisplay_loop (p : Platform) (deltaX deltaY : Int) : List Nat → Run Unit
  | [] => pure ()
  | dID :: rest => do
      let x ← doubleToInt (p.minX dID + deltaX)
      let y ← doubleToInt (p.minY dID + deltaY)
      let _ ← CGConfigureDisplayOrigin p dID x y
      setMainDisplay_loop p deltaX deltaY rest

/-- Lines 140-188, `setMainDisplay`. -/
def setMainDisplay (p : Platform) (targetDisplay : Nat) : Run Unit :=
  let mainDisplay := p.mainDisplay
  if mainDisplay = targetDisplay then
    exit 0
  else do
    let enumeration ← CGGetOnlineDisplayList p MAX_DISPLAYS
    let dErr := enumeration.1
    let onlineDisplays := enumeration.2
    if dErr ≠ kCGErrorSuccess then do
      emit (.stderr (.onlineListError dErr))
      exit 1
    else
      let flag := setMainDisplay_flag targetDisplay onlineDisplays 0
      if flag = 0 then do
        emit (.stderr (.noSuchDisplay targetDisplay))
        exit 1
      else do
        let deltaX ← doubleToInt (-(p.minX targetDisplay))
        let deltaY ← doubleToInt (-(p.minY targetDisplay))
        let _ ← CGBeginDisplayConfiguration p
        setMainDisplay_loop p deltaX deltaY onlineDisplays
        let _ ← CGCompleteDisplayConfiguration p
        exit 0

/-- Lines 206-212 of `InternalID`: the first built-in display, else the
fallback. -/
def InternalID_loop (p : Platform) (fallbackID : Nat) : List Nat → Nat
  | [] => fallbackID
  | dID :: rest => if p.builtin dID then dID else InternalID_loop p fallbackID rest

/-- Lines 191-213, `InternalID`. -/
def InternalID (p : Platform) : Run Nat := do
  let fallbackID := 0
  let enumeration ← CGGetOnlineDisplayList p MAX_DISPLAYS
  let dErr := enumeration.1
  let onlineDisplays := enumeration.2
  if dErr ≠ kCGErrorSuccess then do
    emit (.stderr (.onlineListError dErr))
    exit 1
  else
    pure (InternalID_loop p fallbackID onlineDisplays)

/-- Lines 231-239 of `nonInternalID`: the first display that is not built-in
and is active, else the fallback. -/
def nonInternalID_loop (p : Platform) (fallbackID : Nat) : List Nat → Nat
  | [] => fallbackID
  | dID :: rest =>
      if !(p.builtin dID) && p.active dID then dID else nonInternalID_loop p fallbackID rest

/-- Lines 216-240, `nonInternalID`. -/
def nonInternalID (p : Platform) : Run Nat := do
  let fallbackID := 0
  let enumeration ← CGGetOnlineDisplayList p MAX_DISPLAYS
  let dErr := enumeration.1
  let onlineDisplays := enumeration.2
  if dErr ≠ kCGErrorSuccess then do
    emit (.stderr (.onlineListError dErr))
    exit 1
  else
    pure (nonInternalID_loop p fallbackID onlineDisplays)

/-- Line 261 of `cgIDfromU32`: the test of the loop, with its four
comparisons (`dID` is `onlineDisplays[i]`, `postId` is `preId`). -/
def cgIDfromU32_test (dID onlineDisplays_i preId postId : Nat) : Bool :=
  (dID == preId) || (dID == postId) || (onlineDisplays_i == preId) || (onlineDisplays_i == postId)

/-- Lines 258-267 of `cgIDfromU32`: return the first display that passes the
test; report and `exit(1)` when none does. -/
def cgIDfromU32_loop (preId postId : Nat) : List Nat → Run Nat
  | [] => do
      emit (.stderr .noMatchingId)
      exit 1
  | dID :: rest =>
      if cgIDfromU32_test dID dID preId postId then pure dID
      else cgIDfromU32_loop preId postId rest

/-- Lines 244-268, `cgIDfromU32`. -/
def cgIDfromU32 (p : Platform) (preId : Nat) : Run Nat := do
  let postId := preId
  let enumeration ← CGGetOnlineDisplayList p MAX_DISPLAYS
  let dErr := enumeration.1
  let onlineDisplays := enumeration.2
  if dErr ≠ kCGErrorSuccess then do
    emit (.stderr (.onlineListError dErr))
    exit 1
  else
    cgIDfromU32_loop preId postId onlineDisplays

/-- Lines 271-276, the table `anglebits` of `IOOptionBits` (32 bits). -/
def anglebits (k : ScaleRotate) : List Nat :=
  [ (kIOFBSetTransform ||| (k.kIOScaleRotate0 <<< 16)) % 2 ^ 32,
    (kIOFBSetTransform ||| (k.kIOScaleRotate90 <<< 16)) % 2 ^ 32,
    (kIOFBSetTransform ||| (k.kIOScaleRotate180 <<< 16)) % 2 ^ 32,
    (kIOFBSetTransform ||| (k.kIOScaleRotate270 <<< 16)) % 2 ^ 32 ]

/-- Line 281, the index `(angle / 90) % 4` with the division and remainder
of C. -/
def angleIndex (angle : Int) : Int := Int.tmod (Int.tdiv angle 90) 4

/-- Lines 270-282, `angle2options`; `none` when the index is outside the
four-entry table. -/
def angle2options (k : ScaleRotate) (angle : Int) : Option Nat :=
  if Int.tmod angle 90 ≠ 0 then (anglebits k)[0]?
  else if 0 ≤ angleIndex angle then (anglebits k)[(angleIndex angle).toNat]?
  else none

/-- One option as `getopt(argc, argv, "d:limr:")` delivers it. -/
inductive Opt where
  /-- The option `-d <arg>`, with the value `strtoul(optarg, NULL, 16)`. -/
  | d (optarg : Nat)
  | i
  | l
  | m
  /-- The option `-r <arg>`, with the value `strtol(optarg, NULL, 10)`. -/
  | r (optarg : Int)
  /-- Anything else (`getopt` answers `?`). -/
  | other
deriving DecidableEq, Repr

/-- Lines 297-309 of `main`, the case `d`: the cast of the argument to a
32-bit ID and the three shortcut tests, one after the other. -/
def main_d (p : Platform) (optarg : Nat) : Run Nat := do
  let targetDisplay := optarg % 2 ^ 32
  let targetDisplay ← (if targetDisplay = 2 ^ 32 - 1 then InternalID p else pure targetDisplay)
  let targetDisplay := if targetDisplay = 0 then p.mainDisplay else targetDisplay
  if targetDisplay = 1 then do
    let targetDisplay ← nonInternalID p
    if targetDisplay = 0 then do
      emit (.stderr .noActiveMonitor)
      exit 1
    else
      pure targetDisplay
  else
    pure targetDisplay

/-- Lines 294-319 of `main`, the `getopt` loop over the options, carrying
`targetDisplay` and `angle`. -/
def main_loop (p : Platform) : List Opt → Nat → Int → Run (Nat × Int)
  | [], targetDisplay, angle => pure (targetDisplay, angle)
  | .d optarg :: rest, _, angle => do
      let targetDisplay ← main_d p optarg
      main_loop p rest targetDisplay angle
  | .i :: rest, targetDisplay, angle => do
      infoDisplays p
      main_loop p rest targetDisplay angle
  | .l :: rest, targetDisplay, angle => do
      listDisplays p
      main_loop p rest targetDisplay angle
  | .m :: rest, targetDisplay, angle => do
      setMainDisplay p targetDisplay
      main_loop p rest targetDisplay angle
  | .r optarg :: rest, targetDisplay, _ =>
      main_loop p rest targetDisplay optarg
  | .other :: rest, targetDisplay, angle =>
      main_loop p rest targetDisplay angle

/-- Lines 323-332 of `main`: the toggle. The angle 1 becomes 90 when the
current rotation of the target is 0, and 0 otherwise; any other angle is
kept. -/
def main_toggle (p : Platform) (targetDisplay : Nat) (angle : Int) : Int :=
  if angle = 1 then
    let currentRotation := p.rotation targetDisplay
    if currentRotation = 0 then 90 else 0
  else angle

/-- Lines 321-354 of `main`, what follows the option loop: the rotation
request for `targetDisplay` and `angle`. -/
def main_rotate (k : ScaleRotate) (p : Platform) (targetDisplay : Nat) (angle : Int) :
    Run Unit := do
  let _ ← (if targetDisplay = 0 then usage else pure ())
  let angle := main_toggle p targetDisplay angle
  let options ← (match angle2options k angle with
    | some options => pure options
    | none => undefinedBehaviour)
  let td2 ← cgIDfromU32 p targetDisplay
  let service ← CGDisplayIOServicePort td2
  let dErr ← IOServiceRequestProbe p service options
  if dErr ≠ kCGErrorSuccess then do
    emit (.stderr (.probeError dErr))
    exit 1
  else
    exit 0

/-- Lines 284-355, `main`. -/
def main (k : ScaleRotate) (p : Platform) (opts : List Opt) : Run Unit := do
  let loop ← main_loop p opts 0 0
  main_rotate k p loop.1 loop.2

/-! ## Reading a trace -/

/-- Whether an event is a call on a display's service port:
`CGDisplayIOServicePort` or `IOServiceRequestProbe`. -/
def Event.isService : Event → Bool
  | .CGDisplayIOServicePort _ => true
  | .IOServiceRequestProbe _ _ => true
  | _ => false

/-- A run that touches no service port. -/
def ServiceFree {α : Type} (r : Run α) : Prop := ∀ e ∈ r.trace, e.isService = false

/-- The check of `cgIDfromU32` as the specification words it: "validate that
the given ID is present in the current enumerated device list", without the
redundant comparisons. -/
def cgIDfromU32_spec (p : Platform) (preId : Nat) : Run Nat := do
  let enumeration ← CGGetOnlineDisplayList p MAX_DISPLAYS
  if enumeration.1 ≠ kCGErrorSuccess then do
    emit (.stderr (.onlineListError enumeration.1))
    exit 1
  else if preId ∈ enumeration.2 then
    pure preId
  else do
    emit (.stderr .noMatchingId)
    exit 1

/-- Whether an event is one of the three display-configuration calls. -/
def Event.isConfiguration : Event → Bool
  | .CGBeginDisplayConfiguration => true
  | .CGConfigureDisplayOrigin _ _ _ => true
  | .CGCompleteDisplayConfiguration => true
  | _ => false

/-- A small desk: a built-in panel `1` as main display at the origin and an
external display `5` to its right. -/
def desk : Platform :=
  { mainDisplay := 1, online := [1, 5], onlineErr := 0,
    builtin := fun d => d == 1, active := fun _ => true,
    minX := fun d => if d = 5 then 1440 else 0, minY := fun d => if d = 5 then -120 else 0,
    rotation := fun _ => 0,
    beginErr := 0, originErr := fun _ _ _ => 0, completeErr := 0,
    probeErr := fun _ _ => 0 }

/-- The desk with display services that refuse every configuration call:
`CGBeginDisplayConfiguration`, `CGConfigureDisplayOrigin` and
`CGCompleteDisplayConfiguration` all answer `kCGErrorFailure` (1000). -/
def refusingDesk : Platform :=
  { desk with beginErr := 1000, originErr := fun _ _ _ => 1000, completeErr := 1000 }

/-- Seventeen online displays `1, ..., 17`, one more than the buffer of
`MAX_DISPLAYS` entries holds, with the last one as main display. -/
def wall : Platform :=
  { desk with mainDisplay := 17, online := [1, 2, 3, 4, 5, 6, 7, 8, 9, 10, 11, 12, 13, 14, 15, 16, 17] }

/-- The desk with its panel placed at the least `int` abscissa and the
external display at the greatest. -/
def farDesk : Platform :=
  { desk with minX := fun d => if d = 5 then 2147483647 else -2147483648,
              minY := fun _ => 0 }

/-- The desk after a rotation of its displays by 90 degrees. -/
def rotatedDesk : Platform :=
  { desk with rotation := fun _ => 90 }

/-! ## Sequencing lemmas -/

@[simp] theorem bind_ret {α β : Type} (t : List Event) (a : α) (f : α → Run β) :
    (Run.mk t (.ret a) >>= f) = ⟨t ++ (f a).trace, (f a).res⟩ := rfl

@[simp] theorem bind_exit {α β : Type} (t : List Event) (status : Nat) (f : α → Run β) :
    (Run.mk t (.exit status) >>= f) = ⟨t, .exit status⟩ := rfl

@[simp] theorem bind_undefined {α β : Type} (t : List Event) (f : α → Run β) :
    (Run.mk t (.undefined : Res α) >>= f) = ⟨t, .undefined⟩ := rfl

@[simp] theorem pure_eq {α : Type} (a : α) : (pure a : Run α) = ⟨[], .ret a⟩ := rfl

/-! ## setMainDisplay -/

theorem setMainDisplay_flag_eq (targetDisplay : Nat) (l : List Nat) (flag : Int) :
    setMainDisplay_flag targetDisplay l flag = if targetDisplay ∈ l then 1 else flag := by
  induction l generalizing flag with
  | nil => simp [setMainDisplay_flag]
  | cons dID rest ih =>
    simp only [setMainDisplay_flag, ih, List.mem_cons]
    by_cases h1 : targetDisplay ∈ rest
    · simp [h1]
    · by_cases h2 : dID = targetDisplay
      · simp [h2]
      · have h3 : ¬ targetDisplay = dID := fun h => h2 h.symm
        simp [h1, h2, h3]

theorem doubleToInt_eq (x : Int) (h : INT_MIN ≤ x ∧ x ≤ INT_MAX) :
    doubleToInt x = ⟨[], .ret x⟩ := by
  simp [doubleToInt, h]

theorem doubleToInt_undefined (x : Int) (h : ¬ (INT_MIN ≤ x ∧ x ≤ INT_MAX)) :
    doubleToInt x = ⟨[], .undefined⟩ := by
  simp only [doubleToInt, h, if_false, undefinedBehaviour]

theorem doubleToInt_trace (x : Int) : (doubleToInt x).trace = [] := by
  by_cases h : INT_MIN ≤ x ∧ x ≤ INT_MAX
  · rw [doubleToInt_eq x h]
  · rw [doubleToInt_undefined x h]

theorem setMainDisplay_loop_eq (p : Platform) (deltaX deltaY : Int) (l : List Nat)
    (hx : ∀ dID ∈ l, INT_MIN ≤ p.minX dID + deltaX ∧ p.minX dID + deltaX ≤ INT_MAX)
    (hy : ∀ dID ∈ l, INT_MIN ≤ p.minY dID + deltaY ∧ p.minY dID + deltaY ≤ INT_MAX) :
    setMainDisplay_loop p deltaX deltaY l =
      ⟨l.map (fun dID => Event.CGConfigureDisplayOrigin dID (p.minX dID + deltaX)
        (p.minY dID + deltaY)), .ret ()⟩ := by
  induction l with
  | nil => rfl
  | cons dID rest ih =>
    have ih2 := ih (fun d hd => hx d (List.mem_cons_of_mem _ hd))
      (fun d hd => hy d (List.mem_cons_of_mem _ hd))
    simp [setMainDisplay_loop, ih2, CGConfigureDisplayOrigin,
      doubleToInt_eq _ (hx dID (List.mem_cons_self _ _)),
      doubleToInt_eq _ (hy dID (List.mem_cons_self _ _))]

/-- C7. Whatever the state of the displays, `setMainDisplay` called with the
current main display exits with status 0 at once: its trace is empty, so it
enumerates nothing and makes no configuration call. -/
theorem setMainDisplay_main_noop (p : Platform) :
    setMainDisplay p p.mainDisplay = ⟨[], .exit 0⟩ := by
  simp [setMainDisplay, exit]

theorem setMainDisplay_enumeration_failure (p : Platform) (targetDisplay : Nat)
    (hne : p.mainDisplay ≠ targetDisplay) (herr : p.onlineErr ≠ kCGErrorSuccess) :
    setMainDisplay p targetDisplay =
      ⟨[.CGGetOnlineDisplayList, .stderr (.onlineListError p.onlineErr)], .exit 1⟩ := by
  simp [setMainDisplay, hne, herr, exit, emit, CGGetOnlineDisplayList]

theorem setMainDisplay_not_enumerated (p : Platform) (targetDisplay : Nat)
    (hne : p.mainDisplay ≠ targetDisplay) (herr : p.onlineErr = kCGErrorSuccess)
    (habs : targetDisplay ∉ enumerated p) :
    setMainDisplay p targetDisplay =
      ⟨[.CGGetOnlineDisplayList, .stderr (.noSuchDisplay targetDisplay)], .exit 1⟩ := by
  have habs2 : targetDisplay ∉ List.take MAX_DISPLAYS p.online := habs
  simp [setMainDisplay, hne, herr, habs2, exit, emit, CGGetOnlineDisplayList,
    setMainDisplay_flag_eq]

theorem setMainDisplay_enumerated (p : Platform) (targetDisplay : Nat)
    (hne : p.mainDisplay ≠ targetDisplay) (herr : p.onlineErr = kCGErrorSuccess)
    (hmem : targetDisplay ∈ enumerated p)
    (hdx : INT_MIN ≤ -(p.minX targetDisplay) ∧ -(p.minX targetDisplay) ≤ INT_MAX)
    (hdy : INT_MIN ≤ -(p.minY targetDisplay) ∧ -(p.minY targetDisplay) ≤ INT_MAX)
    (hx : ∀ dID ∈ enumerated p, INT_MIN ≤ p.minX dID + -(p.minX targetDisplay) ∧
      p.minX dID + -(p.minX targetDisplay) ≤ INT_MAX)
    (hy : ∀ dID ∈ enumerated p, INT_MIN ≤ p.minY dID + -(p.minY targetDisplay) ∧
      p.minY dID + -(p.minY targetDisplay) ≤ INT_MAX) :
    setMainDisplay p targetDisplay =
      ⟨[.CGGetOnlineDisplayList, .CGBeginDisplayConfiguration] ++
        (enumerated p).map (fun dID => Event.CGConfigureDisplayOrigin dID
          (p.minX dID + -(p.minX targetDisplay)) (p.minY dID + -(p.minY targetDisplay))) ++
        [.CGCompleteDisplayConfiguration], .exit 0⟩ := by
  have hmem2 : targetDisplay ∈ List.take MAX_DISPLAYS p.online := hmem
  have hloop := setMainDisplay_loop_eq p (-(p.minX targetDisplay)) (-(p.minY targetDisplay))
    (List.take MAX_DISPLAYS p.online) hx hy
  simp [setMainDisplay, hne, herr, hmem2, exit, CGGetOnlineDisplayList,
    CGBeginDisplayConfiguration, CGCompleteDisplayConfiguration, setMainDisplay_flag_eq,
    doubleToInt_eq _ hdx, doubleToInt_eq _ hdy, hloop, enumerated]

theorem setMainDisplay_out_of_range :
    setMainDisplay farDesk 5 =
      ⟨[.CGGetOnlineDisplayList, .CGBeginDisplayConfiguration], .undefined⟩ := by
  decide

/-- C5. A successful `setMainDisplay` on a target `X` that is enumerated and
is not the main display, with integral origins whose negated target origin
and differences `minX d - minX X`, `minY d - minY X` fit the 32-bit `int` the
program computes them in, is one transaction: after the enumeration one
`CGBeginDisplayConfiguration`, then for every enumerated display `d`, in
order and once each, `CGConfigureDisplayOrigin` with the origin
`(minX d - minX X, minY d - minY X)`, then one
`CGCompleteDisplayConfiguration`, and `exit(0)`.  The origin submitted for `X`
itself is `(0, 0)`. -/
theorem setMainDisplay_origins (p : Platform) (X : Nat)
    (hok : p.onlineErr = kCGErrorSuccess) (hmem : X ∈ enumerated p)
    (hne : p.mainDisplay ≠ X)
    (hdelta : (INT_MIN ≤ -(p.minX X) ∧ -(p.minX X) ≤ INT_MAX) ∧
      (INT_MIN ≤ -(p.minY X) ∧ -(p.minY X) ≤ INT_MAX))
    (hrange : ∀ d ∈ enumerated p,
      (INT_MIN ≤ p.minX d - p.minX X ∧ p.minX d - p.minX X ≤ INT_MAX) ∧
      (INT_MIN ≤ p.minY d - p.minY X ∧ p.minY d - p.minY X ≤ INT_MAX)) :
    setMainDisplay p X =
      ⟨[.CGGetOnlineDisplayList, .CGBeginDisplayConfiguration] ++
        (enumerated p).map (fun d => Event.CGConfigureDisplayOrigin d
          (p.minX d - p.minX X) (p.minY d - p.minY X)) ++
        [.CGCompleteDisplayConfiguration], .exit 0⟩ ∧
    Event.CGConfigureDisplayOrigin X 0 0 ∈ (setMainDisplay p X).trace := by
  have h := setMainDisplay_enumerated p X hne hok hmem hdelta.1 hdelta.2
    (fun d hd => by
      have := (hrange d hd).1
      rw [Int.sub_eq_add_neg] at this
      exact this)
    (fun d hd => by
      have := (hrange d hd).2
      rw [Int.sub_eq_add_neg] at this
      exact this)
  have h2 : setMainDisplay p X =
      ⟨[.CGGetOnlineDisplayList, .CGBeginDisplayConfiguration] ++
        (enumerated p).map (fun d => Event.CGConfigureDisplayOrigin d
          (p.minX d - p.minX X) (p.minY d - p.minY X)) ++
        [.CGCompleteDisplayConfiguration], .exit 0⟩ := by
    rw [h]
    simp only [Int.sub_eq_add_neg]
  refine ⟨h2, ?_⟩
  rw [h2]
  simp only [List.mem_append, List.mem_map]
  exact Or.inl (Or.inr ⟨X, hmem, by simp⟩)

/-- Witness of C5: on the desk, making the external display `5` the main one
submits `(-1440, 120)` for the panel and `(0, 0)` for the display itself. -/
theorem setMainDisplay_origins_witness :
    setMainDisplay desk 5 =
      ⟨[.CGGetOnlineDisplayList, .CGBeginDisplayConfiguration] ++
        (enumerated desk).map (fun d => Event.CGConfigureDisplayOrigin d
          (desk.minX d - desk.minX 5) (desk.minY d - desk.minY 5)) ++
        [.CGCompleteDisplayConfiguration], .exit 0⟩ ∧
    Event.CGConfigureDisplayOrigin 5 0 0 ∈ (setMainDisplay desk 5).trace :=
  setMainDisplay_origins desk 5 (by decide) (by decide) (by decide) (by decide) (by decide)

/-- C6, as stated, fails: on the wall the main display `17` is not among the
sixteen enumerated displays, and `setMainDisplay` on it exits with status 0,
not 1. -/
theorem setMainDisplay_absent_main_exits_zero :
    17 ∉ enumerated wall ∧ setMainDisplay wall 17 = ⟨[], .exit 0⟩ := by
  decide

/-- C6, amended. For a target that is not among the enumerated displays,
`setMainDisplay` makes none of the three configuration calls; when the target
is moreover not the current main display it exits with status 1, and after a
successful enumeration it does so right after printing "No such display ID". -/
theorem setMainDisplay_absent (p : Platform) (targetDisplay : Nat)
    (habs : targetDisplay ∉ enumerated p) :
    (∀ e ∈ (setMainDisplay p targetDisplay).trace, e.isConfiguration = false) ∧
    (p.mainDisplay ≠ targetDisplay → (setMainDisplay p targetDisplay).res = .exit 1) ∧
    (p.mainDisplay ≠ targetDisplay → p.onlineErr = kCGErrorSuccess →
      setMainDisplay p targetDisplay =
        ⟨[.CGGetOnlineDisplayList, .stderr (.noSuchDisplay targetDisplay)], .exit 1⟩) := by
  refine ⟨?_, ?_, ?_⟩
  · by_cases hne : p.mainDisplay = targetDisplay
    · subst hne
      simp [setMainDisplay, exit]
    · by_cases herr : p.onlineErr = kCGErrorSuccess
      · rw [setMainDisplay_not_enumerated p targetDisplay hne herr habs]
        simp [Event.isConfiguration]
      · rw [setMainDisplay_enumeration_failure p targetDisplay hne herr]
        simp [Event.isConfiguration]
  · intro hne
    by_cases herr : p.onlineErr = kCGErrorSuccess
    · rw [setMainDisplay_not_enumerated p targetDisplay hne herr habs]
    · rw [setMainDisplay_enumeration_failure p targetDisplay hne herr]
  · intro hne herr
    exact setMainDisplay_not_enumerated p targetDisplay hne herr habs

/-- Witness of C6, amended: display `9` is not on the desk. -/
theorem setMainDisplay_absent_witness :
    (∀ e ∈ (setMainDisplay desk 9).trace, e.isConfiguration = false) ∧
    (desk.mainDisplay ≠ 9 → (setMainDisplay desk 9).res = .exit 1) ∧
    (desk.mainDisplay ≠ 9 → desk.onlineErr = kCGErrorSuccess →
      setMainDisplay desk 9 =
        ⟨[.CGGetOnlineDisplayList, .stderr (.noSuchDisplay 9)], .exit 1⟩) :=
  setMainDisplay_absent desk 9 (by decide)

/-- C8 fails in `setMainDisplay`: with display services that answer
`kCGErrorFailure` to `CGBeginDisplayConfiguration`, to every
`CGConfigureDisplayOrigin` and to `CGCompleteDisplayConfiguration`, the run
goes through all the calls, writes nothing to standard error and ends in
`exit(0)`. -/
theorem setMainDisplay_ignores_failure :
    refusingDesk.beginErr ≠ kCGErrorSuccess ∧
    refusingDesk.originErr 5 0 0 ≠ kCGErrorSuccess ∧
    refusingDesk.completeErr ≠ kCGErrorSuccess ∧
    setMainDisplay refusingDesk 5 =
      ⟨[.CGGetOnlineDisplayList, .CGBeginDisplayConfiguration,
        .CGConfigureDisplayOrigin 1 (-1440) 120, .CGConfigureDisplayOrigin 5 0 0,
        .CGCompleteDisplayConfiguration], .exit 0⟩ := by
  decide

/-! ## angle2options -/

theorem angle2options_zero (k : ScaleRotate) :
    angle2options k 0 = some ((kIOFBSetTransform ||| (k.kIOScaleRotate0 <<< 16)) % 2 ^ 32) := by
  simp [angle2options, angleIndex, anglebits]

theorem option_lt (a : Nat) (ha : a < 2 ^ 16) :
    (kIOFBSetTransform ||| (a <<< 16)) < 2 ^ 32 := by
  apply Nat.or_lt_two_pow
  · decide
  · rw [Nat.shiftLeft_eq]
    omega

theorem option_mod (a : Nat) (ha : a < 2 ^ 16) :
    (kIOFBSetTransform ||| (a <<< 16)) % 2 ^ 32 = kIOFBSetTransform ||| (a <<< 16) :=
  Nat.mod_eq_of_lt (option_lt a ha)

theorem option_inj (a b : Nat)
    (h : (kIOFBSetTransform ||| (a <<< 16)) = (kIOFBSetTransform ||| (b <<< 16))) : a = b := by
  apply Nat.eq_of_testBit_eq
  intro i
  have h2 := congrArg (fun n => n.testBit (i + 16)) h
  have h3 : kIOFBSetTransform.testBit (i + 16) = false := by
    apply Nat.testBit_lt_two_pow
    exact Nat.lt_of_lt_of_le (by decide : kIOFBSetTransform < 2 ^ 16)
      (Nat.pow_le_pow_right (by decide) (by omega))
  simpa [Nat.testBit_or, Nat.testBit_shiftLeft, h3] using h2

theorem tmod_ninety_ne_zero (angle : Int) (h : ¬ (90 : Int) ∣ angle) : Int.tmod angle 90 ≠ 0 :=
  fun h0 => h (Int.dvd_of_tmod_eq_zero h0)

/-- C2. For every angle that is not a multiple of 90, of either sign,
`angle2options` returns what it returns for the angle 0, the first entry of
the table. -/
theorem angle2options_reset (k : ScaleRotate) (angle : Int) (h : ¬ (90 : Int) ∣ angle) :
    angle2options k angle = angle2options k 0 ∧
    angle2options k angle =
      some ((kIOFBSetTransform ||| (k.kIOScaleRotate0 <<< 16)) % 2 ^ 32) := by
  have h1 : angle2options k angle =
      some ((kIOFBSetTransform ||| (k.kIOScaleRotate0 <<< 16)) % 2 ^ 32) := by
    simp [angle2options, tmod_ninety_ne_zero angle h, anglebits]
  exact ⟨by rw [h1, angle2options_zero], h1⟩

/-- Witness of C2: the angles 45 and -135 are reset like the angle 0. -/
theorem angle2options_reset_witness :
    (angle2options ioGraphicsScale 45 = angle2options ioGraphicsScale 0 ∧
      angle2options ioGraphicsScale 45 =
        some ((kIOFBSetTransform ||| (ioGraphicsScale.kIOScaleRotate0 <<< 16)) % 2 ^ 32)) ∧
    (angle2options ioGraphicsScale (-135) = angle2options ioGraphicsScale 0 ∧
      angle2options ioGraphicsScale (-135) =
        some ((kIOFBSetTransform ||| (ioGraphicsScale.kIOScaleRotate0 <<< 16)) % 2 ^ 32)) :=
  ⟨angle2options_reset ioGraphicsScale 45 (by decide),
   angle2options_reset ioGraphicsScale (-135) (by decide)⟩

theorem angle2options_none (k : ScaleRotate) (angle : Int) (h0 : Int.tmod angle 90 = 0)
    (h1 : angleIndex angle < 0) : angle2options k angle = none := by
  unfold angle2options
  rw [if_neg (by simpa using h0), if_neg (by omega)]

/-- C10 fails at the angle -90: it passes the test `angle % 90 != 0`, the
index `(angle / 90) % 4` is -1, and the read of the four-entry table is out of
bounds, whatever the four constants are. The same holds at -180 and -270. -/
theorem angle2options_negative_out_of_bounds :
    Int.tmod (-90) 90 = 0 ∧ angleIndex (-90) = -1 ∧
    angleIndex (-180) = -2 ∧ angleIndex (-270) = -3 ∧
    ∀ k : ScaleRotate, angle2options k (-90) = none ∧ angle2options k (-180) = none ∧
      angle2options k (-270) = none := by
  refine ⟨by decide, by decide, by decide, by decide, ?_⟩
  intro k
  exact ⟨angle2options_none k (-90) (by decide) (by decide),
    angle2options_none k (-180) (by decide) (by decide),
    angle2options_none k (-270) (by decide) (by decide)⟩

theorem angleIndex_nonneg_lt (angle : Int) (h : 0 ≤ angle) :
    0 ≤ angleIndex angle ∧ angleIndex angle < 4 := by
  unfold angleIndex
  have h1 : 0 ≤ Int.tdiv angle 90 := by
    rw [Int.tdiv_eq_ediv h (by decide)]
    omega
  exact ⟨Int.tmod_nonneg _ h1, Int.tmod_lt_of_pos _ (by decide)⟩

theorem angle2options_isSome_of_nonneg (k : ScaleRotate) (angle : Int) (h : 0 ≤ angle) :
    (angle2options k angle).isSome = true := by
  by_cases h0 : Int.tmod angle 90 = 0
  · obtain ⟨h1, h2⟩ := angleIndex_nonneg_lt angle h
    have h3 : (angleIndex angle).toNat < (anglebits k).length := by
      simp only [anglebits, List.length_cons, List.length_nil]
      omega
    simp [angle2options, h0, h1, List.getElem?_eq_getElem h3]
  · simp [angle2options, h0, anglebits]

/-! ## Calls on service ports -/

theorem mem_bind_trace {α β : Type} (m : Run α) (f : α → Run β) (e : Event)
    (h : e ∈ (m >>= f).trace) : e ∈ m.trace ∨ ∃ a, m.res = .ret a ∧ e ∈ (f a).trace := by
  obtain ⟨t, r⟩ := m
  cases r with
  | ret a =>
    simp only [bind_ret, List.mem_append] at h
    rcases h with h | h
    · exact Or.inl h
    · exact Or.inr ⟨a, rfl, h⟩
  | exit status => exact Or.inl (by simpa using h)
  | undefined => exact Or.inl (by simpa using h)

theorem serviceFree_bind {α β : Type} (m : Run α) (f : α → Run β)
    (hm : ServiceFree m) (hf : ∀ a, ServiceFree (f a)) : ServiceFree (m >>= f) := by
  intro e he
  rcases mem_bind_trace m f e he with h | ⟨a, _, h⟩
  · exact hm e h
  · exact hf a e h

theorem serviceFree_pure {α : Type} (a : α) : ServiceFree (pure a : Run α) := by
  intro e he
  simp at he

theorem serviceFree_exit {α : Type} (status : Nat) : ServiceFree (exit status : Run α) := by
  intro e he
  simp [exit] at he

theorem serviceFree_stderr (line : Diag) : ServiceFree (emit (.stderr line)) := by
  intro e he
  simp [emit] at he
  subst he
  rfl

theorem serviceFree_stdout (line : Out) : ServiceFree (emit (.stdout line)) := by
  intro e he
  simp [emit] at he
  subst he
  rfl

theorem serviceFree_enum (p : Platform) (n : Nat) : ServiceFree (CGGetOnlineDisplayList p n) := by
  intro e he
  simp [CGGetOnlineDisplayList] at he
  subst he
  rfl

theorem serviceFree_listDisplays_loop (p : Platform) (m : Nat) (l : List Nat) :
    ServiceFree (listDisplays_loop p m l) := by
  induction l with
  | nil => exact serviceFree_pure ()
  | cons dID rest ih =>
    unfold listDisplays_loop
    exact serviceFree_bind _ _ (serviceFree_stdout _) (fun _ => ih)

theorem serviceFree_infoDisplays_loop (p : Platform) (m : Nat) (l : List Nat) :
    ServiceFree (infoDisplays_loop p m l) := by
  induction l with
  | nil => exact serviceFree_pure ()
  | cons dID rest ih =>
    unfold infoDisplays_loop
    exact serviceFree_bind _ _ (serviceFree_stdout _)
      (fun _ => serviceFree_bind _ _ (serviceFree_stdout _) (fun _ => ih))

theorem serviceFree_listDisplays (p : Platform) : ServiceFree (listDisplays p) := by
  unfold listDisplays
  refine serviceFree_bind _ _ (serviceFree_enum _ _) (fun enumeration => ?_)
  dsimp only
  split
  · exact serviceFree_bind _ _ (serviceFree_stderr _) (fun _ => serviceFree_exit _)
  · exact serviceFree_bind _ _ (serviceFree_stdout _) (fun _ =>
      serviceFree_bind _ _ (serviceFree_listDisplays_loop _ _ _) (fun _ => serviceFree_exit _))

theorem serviceFree_infoDisplays (p : Platform) : ServiceFree (infoDisplays p) := by
  unfold infoDisplays
  refine serviceFree_bind _ _ (serviceFree_enum _ _) (fun enumeration => ?_)
  dsimp only
  split
  · exact serviceFree_bind _ _ (serviceFree_stderr _) (fun _ => serviceFree_exit _)
  · exact serviceFree_bind _ _ (serviceFree_stdout _) (fun _ =>
      serviceFree_bind _ _ (serviceFree_infoDisplays_loop _ _ _) (fun _ =>
        serviceFree_bind _ _ (serviceFree_stdout _) (fun _ => serviceFree_exit _)))

theorem serviceFree_doubleToInt (x : Int) : ServiceFree (doubleToInt x) := by
  intro e he
  rw [doubleToInt_trace] at he
  simp at he

theorem serviceFree_configure (p : Platform) (dID : Nat) (x y : Int) :
    ServiceFree (CGConfigureDisplayOrigin p dID x y) := by
  intro e he
  simp [CGConfigureDisplayOrigin] at he
  subst he
  rfl

theorem serviceFree_setMainDisplay_loop (p : Platform) (dx dy : Int) (l : List Nat) :
    ServiceFree (setMainDisplay_loop p dx dy l) := by
  induction l with
  | nil => exact serviceFree_pure ()
  | cons dID rest ih =>
    unfold setMainDisplay_loop
    exact serviceFree_bind _ _ (serviceFree_doubleToInt _) (fun x =>
      serviceFree_bind _ _ (serviceFree_doubleToInt _) (fun y =>
        serviceFree_bind _ _ (serviceFree_configure p dID x y) (fun _ => ih)))

theorem serviceFree_setMainDisplay (p : Platform) (targetDisplay : Nat) :
    ServiceFree (setMainDisplay p targetDisplay) := by
  unfold setMainDisplay
  dsimp only
  split
  · exact serviceFree_exit _
  · refine serviceFree_bind _ _ (serviceFree_enum _ _) (fun enumeration => ?_)
    dsimp only
    split
    · exact serviceFree_bind _ _ (serviceFree_stderr _) (fun _ => serviceFree_exit _)
    · split
      · exact serviceFree_bind _ _ (serviceFree_stderr _) (fun _ => serviceFree_exit _)
      · refine serviceFree_bind _ _ (serviceFree_doubleToInt _) (fun deltaX =>
          serviceFree_bind _ _ (serviceFree_doubleToInt _) (fun deltaY => ?_))
        refine serviceFree_bind _ _ ?_ (fun _ => serviceFree_bind _ _
          (serviceFree_setMainDisplay_loop _ _ _ _) (fun _ => serviceFree_bind _ _ ?_
            (fun _ => serviceFree_exit _)))
        · intro e he
          simp [CGBeginDisplayConfiguration] at he
          subst he
          rfl
        · intro e he
          simp [CGCompleteDisplayConfiguration] at he
          subst he
          rfl

theorem serviceFree_InternalID (p : Platform) : ServiceFree (InternalID p) := by
  unfold InternalID
  refine serviceFree_bind _ _ (serviceFree_enum _ _) (fun enumeration => ?_)
  dsimp only
  split
  · exact serviceFree_bind _ _ (serviceFree_stderr _) (fun _ => serviceFree_exit _)
  · exact serviceFree_pure _

theorem serviceFree_nonInternalID (p : Platform) : ServiceFree (nonInternalID p) := by
  unfold nonInternalID
  refine serviceFree_bind _ _ (serviceFree_enum _ _) (fun enumeration => ?_)
  dsimp only
  split
  · exact serviceFree_bind _ _ (serviceFree_stderr _) (fun _ => serviceFree_exit _)
  · exact serviceFree_pure _

theorem serviceFree_main_d (p : Platform) (optarg : Nat) : ServiceFree (main_d p optarg) := by
  unfold main_d
  refine serviceFree_bind _ _ ?_ (fun t => ?_)
  · split
    · exact serviceFree_InternalID p
    · exact serviceFree_pure _
  · dsimp only
    generalize (if t = 0 then p.mainDisplay else t) = t1
    split
    · refine serviceFree_bind _ _ (serviceFree_nonInternalID p) (fun t2 => ?_)
      split
      · exact serviceFree_bind _ _ (serviceFree_stderr _) (fun _ => serviceFree_exit _)
      · exact serviceFree_pure _
    · exact serviceFree_pure _

theorem serviceFree_main_loop (p : Platform) (opts : List Opt) (targetDisplay : Nat)
    (angle : Int) : ServiceFree (main_loop p opts targetDisplay angle) := by
  induction opts generalizing targetDisplay angle with
  | nil => exact serviceFree_pure _
  | cons o rest ih =>
    cases o with
    | d optarg =>
      unfold main_loop
      exact serviceFree_bind _ _ (serviceFree_main_d p optarg) (fun t => ih t angle)
    | i =>
      unfold main_loop
      exact serviceFree_bind _ _ (serviceFree_infoDisplays p) (fun _ => ih targetDisplay angle)
    | l =>
      unfold main_loop
      exact serviceFree_bind _ _ (serviceFree_listDisplays p) (fun _ => ih targetDisplay angle)
    | m =>
      unfold main_loop
      exact serviceFree_bind _ _ (serviceFree_setMainDisplay p targetDisplay)
        (fun _ => ih targetDisplay angle)
    | r optarg =>
      unfold main_loop
      exact ih targetDisplay optarg
    | other =>
      unfold main_loop
      exact ih targetDisplay angle

/-! ## cgIDfromU32 and the rotation request -/

theorem cgIDfromU32_test_eq (dID preId : Nat) :
    cgIDfromU32_test dID dID preId preId = (dID == preId) := by
  simp [cgIDfromU32_test]

theorem cgIDfromU32_loop_eq (preId : Nat) (l : List Nat) :
    cgIDfromU32_loop preId preId l =
      if preId ∈ l then ⟨[], .ret preId⟩ else ⟨[.stderr .noMatchingId], .exit 1⟩ := by
  induction l with
  | nil => simp [cgIDfromU32_loop, emit, exit]
  | cons dID rest ih =>
    simp only [cgIDfromU32_loop, cgIDfromU32_test_eq, ih, List.mem_cons]
    by_cases h : dID = preId
    · subst h
      simp
    · have h2 : ¬ preId = dID := fun e => h e.symm
      simp [h, h2]

theorem cgIDfromU32_eq (p : Platform) (preId : Nat) :
    cgIDfromU32 p preId =
      if p.onlineErr ≠ kCGErrorSuccess then
        ⟨[.CGGetOnlineDisplayList, .stderr (.onlineListError p.onlineErr)], .exit 1⟩
      else if preId ∈ enumerated p then ⟨[.CGGetOnlineDisplayList], .ret preId⟩
      else ⟨[.CGGetOnlineDisplayList, .stderr .noMatchingId], .exit 1⟩ := by
  by_cases herr : p.onlineErr = kCGErrorSuccess
  · by_cases hmem : preId ∈ enumerated p
    · have hmem2 : preId ∈ List.take MAX_DISPLAYS p.online := hmem
      simp [cgIDfromU32, CGGetOnlineDisplayList, herr, hmem, hmem2, cgIDfromU32_loop_eq]
    · have hmem2 : preId ∉ List.take MAX_DISPLAYS p.online := hmem
      simp [cgIDfromU32, CGGetOnlineDisplayList, herr, hmem, hmem2, cgIDfromU32_loop_eq]
  · simp [cgIDfromU32, CGGetOnlineDisplayList, herr, emit, exit]

theorem cgIDfromU32_spec_eq (p : Platform) (preId : Nat) :
    cgIDfromU32_spec p preId =
      if p.onlineErr ≠ kCGErrorSuccess then
        ⟨[.CGGetOnlineDisplayList, .stderr (.onlineListError p.onlineErr)], .exit 1⟩
      else if preId ∈ enumerated p then ⟨[.CGGetOnlineDisplayList], .ret preId⟩
      else ⟨[.CGGetOnlineDisplayList, .stderr .noMatchingId], .exit 1⟩ := by
  by_cases herr : p.onlineErr = kCGErrorSuccess
  · by_cases hmem : preId ∈ enumerated p
    · have hmem2 : preId ∈ List.take MAX_DISPLAYS p.online := hmem
      simp [cgIDfromU32_spec, CGGetOnlineDisplayList, herr, hmem, hmem2]
    · have hmem2 : preId ∉ List.take MAX_DISPLAYS p.online := hmem
      simp [cgIDfromU32_spec, CGGetOnlineDisplayList, herr, hmem, hmem2, emit, exit]
  · simp [cgIDfromU32_spec, CGGetOnlineDisplayList, herr, emit, exit]

theorem main_rotate_eq (k : ScaleRotate) (p : Platform) (targetDisplay : Nat) (angle : Int) :
    main_rotate k p targetDisplay angle =
      if targetDisplay = 0 then ⟨[.stderr .usage], .exit 1⟩
      else match angle2options k (main_toggle p targetDisplay angle) with
        | none => ⟨[], .undefined⟩
        | some options =>
          if p.onlineErr ≠ kCGErrorSuccess then
            ⟨[.CGGetOnlineDisplayList, .stderr (.onlineListError p.onlineErr)], .exit 1⟩
          else if targetDisplay ∈ enumerated p then
            if p.probeErr targetDisplay options ≠ kCGErrorSuccess then
              ⟨[.CGGetOnlineDisplayList, .CGDisplayIOServicePort targetDisplay,
                .IOServiceRequestProbe targetDisplay options,
                .stderr (.probeError (p.probeErr targetDisplay options))], .exit 1⟩
            else
              ⟨[.CGGetOnlineDisplayList, .CGDisplayIOServicePort targetDisplay,
                .IOServiceRequestProbe targetDisplay options], .exit 0⟩
          else ⟨[.CGGetOnlineDisplayList, .stderr .noMatchingId], .exit 1⟩ := by
  by_cases h0 : targetDisplay = 0
  · simp [main_rotate, h0, usage, emit, exit]
  · cases hopt : angle2options k (main_toggle p targetDisplay angle) with
    | none => simp [main_rotate, h0, hopt, undefinedBehaviour]
    | some options =>
      by_cases herr : p.onlineErr = kCGErrorSuccess
      · by_cases hmem : targetDisplay ∈ enumerated p
        · by_cases hprobe : p.probeErr targetDisplay options = kCGErrorSuccess
          · simp [main_rotate, h0, hopt, cgIDfromU32_eq, herr, hmem, hprobe,
              CGDisplayIOServicePort, IOServiceRequestProbe, emit, exit]
          · simp [main_rotate, h0, hopt, cgIDfromU32_eq, herr, hmem, hprobe,
              CGDisplayIOServicePort, IOServiceRequestProbe, emit, exit]
        · simp [main_rotate, h0, hopt, cgIDfromU32_eq, herr, hmem]
      · simp [main_rotate, h0, hopt, cgIDfromU32_eq, herr]

theorem main_rotate_service (k : ScaleRotate) (p : Platform) (targetDisplay : Nat)
    (angle : Int) (e : Event) (he : e ∈ (main_rotate k p targetDisplay angle).trace)
    (hs : e.isService = true) :
    targetDisplay ∈ enumerated p ∧
    ∃ options, angle2options k (main_toggle p targetDisplay angle) = some options ∧
      (e = .CGDisplayIOServicePort targetDisplay ∨
        e = .IOServiceRequestProbe targetDisplay options) := by
  rw [main_rotate_eq] at he
  by_cases h0 : targetDisplay = 0
  · simp [h0] at he
    subst he
    simp [Event.isService] at hs
  · cases hopt : angle2options k (main_toggle p targetDisplay angle) with
    | none => simp [h0, hopt] at he
    | some options =>
      by_cases herr : p.onlineErr = kCGErrorSuccess
      · by_cases hmem : targetDisplay ∈ enumerated p
        · refine ⟨hmem, options, rfl, ?_⟩
          by_cases hprobe : p.probeErr targetDisplay options = kCGErrorSuccess
          · simp [h0, hopt, herr, hmem, hprobe] at he
            rcases he with rfl | rfl | rfl
            · simp [Event.isService] at hs
            · exact Or.inl rfl
            · exact Or.inr rfl
          · simp [h0, hopt, herr, hmem, hprobe] at he
            rcases he with rfl | rfl | rfl | rfl
            · simp [Event.isService] at hs
            · exact Or.inl rfl
            · exact Or.inr rfl
            · simp [Event.isService] at hs
        · simp [h0, hopt, herr, hmem] at he
          rcases he with rfl | rfl <;> simp [Event.isService] at hs
      · simp [h0, hopt, herr] at he
        rcases he with rfl | rfl <;> simp [Event.isService] at hs

theorem main_of_loop (k : ScaleRotate) (p : Platform) (opts : List Opt) (targetDisplay : Nat)
    (angle : Int) (h : (main_loop p opts 0 0).res = .ret (targetDisplay, angle)) :
    main k p opts =
      ⟨(main_loop p opts 0 0).trace ++ (main_rotate k p targetDisplay angle).trace,
        (main_rotate k p targetDisplay angle).res⟩ := by
  unfold main
  generalize main_loop p opts 0 0 = r at h
  obtain ⟨t, res⟩ := r
  simp only at h
  subst h
  rfl

theorem main_service (k : ScaleRotate) (p : Platform) (opts : List Opt) (e : Event)
    (he : e ∈ (main k p opts).trace) (hs : e.isService = true) :
    ∃ targetDisplay angle, (main_loop p opts 0 0).res = .ret (targetDisplay, angle) ∧
      e ∈ (main_rotate k p targetDisplay angle).trace := by
  unfold main at he
  rcases mem_bind_trace _ _ e he with h | ⟨a, ha, h⟩
  · have := serviceFree_main_loop p opts 0 0 e h
    rw [this] at hs
    exact absurd hs (by decide)
  · exact ⟨a.1, a.2, ha, h⟩

theorem main_probe (k : ScaleRotate) (p : Platform) (opts : List Opt) (targetDisplay : Nat)
    (angle : Int) (hloop : (main_loop p opts 0 0).res = .ret (targetDisplay, angle))
    (d o : Nat) (he : Event.IOServiceRequestProbe d o ∈ (main k p opts).trace) :
    d = targetDisplay ∧ targetDisplay ∈ enumerated p ∧
      angle2options k (main_toggle p targetDisplay angle) = some o := by
  obtain ⟨t, a, hres, hmem⟩ := main_service k p opts _ he rfl
  rw [hloop] at hres
  injection hres with hres
  injection hres with h1 h2
  subst h1
  subst h2
  obtain ⟨hen, options, hopt, hcase⟩ := main_rotate_service k p _ _ _ hmem rfl
  rcases hcase with h | h
  · exact absurd h (by simp)
  · injection h with h1 h2
    subst h1
    subst h2
    exact ⟨rfl, hen, hopt⟩

theorem main_probe_exists (k : ScaleRotate) (p : Platform) (opts : List Opt)
    (targetDisplay : Nat) (angle : Int) (o : Nat)
    (hloop : (main_loop p opts 0 0).res = .ret (targetDisplay, angle))
    (h0 : targetDisplay ≠ 0) (herr : p.onlineErr = kCGErrorSuccess)
    (hmem : targetDisplay ∈ enumerated p)
    (hopt : angle2options k (main_toggle p targetDisplay angle) = some o) :
    Event.IOServiceRequestProbe targetDisplay o ∈ (main k p opts).trace := by
  rw [main_of_loop k p opts targetDisplay angle hloop]
  apply List.mem_append_right
  rw [main_rotate_eq]
  by_cases hprobe : p.probeErr targetDisplay o = kCGErrorSuccess
  · simp [h0, hopt, herr, hmem, hprobe]
  · simp [h0, hopt, herr, hmem, hprobe]

theorem angle2options_90 (k : ScaleRotate) :
    angle2options k 90 = some ((kIOFBSetTransform ||| (k.kIOScaleRotate90 <<< 16)) % 2 ^ 32) := by
  have h1 : Int.tmod 90 90 = 0 := by decide
  have h2 : angleIndex 90 = 1 := by decide
  simp [angle2options, h1, h2, anglebits]

theorem angle2options_180 (k : ScaleRotate) :
    angle2options k 180 =
      some ((kIOFBSetTransform ||| (k.kIOScaleRotate180 <<< 16)) % 2 ^ 32) := by
  have h1 : Int.tmod 180 90 = 0 := by decide
  have h2 : angleIndex 180 = 2 := by decide
  simp [angle2options, h1, h2, anglebits]

theorem angle2options_270 (k : ScaleRotate) :
    angle2options k 270 =
      some ((kIOFBSetTransform ||| (k.kIOScaleRotate270 <<< 16)) % 2 ^ 32) := by
  have h1 : Int.tmod 270 90 = 0 := by decide
  have h2 : angleIndex 270 = 3 := by decide
  simp [angle2options, h1, h2, anglebits]

theorem main_toggle_of_ne (p : Platform) (targetDisplay : Nat) (angle : Int) (h : angle ≠ 1) :
    main_toggle p targetDisplay angle = angle := by
  simp [main_toggle, h]

/-- C1. With the four constants of the platform (each a 16-bit flag word, and
pairwise distinct), `angle2options` sends 0, 90, 180 and 270 to
`kIOFBSetTransform | (kIOScaleRotate* << 16)` for the matching constant, and
the four results are pairwise distinct.  In `main`, when the option loop ends
with one of these angles, every probe request carries exactly that value and
goes to the target, whichever display the target is; and it is issued as soon
as the target is enumerated. -/
theorem angle2options_table (k : ScaleRotate)
    (hbound : k.kIOScaleRotate0 < 2 ^ 16 ∧ k.kIOScaleRotate90 < 2 ^ 16 ∧
      k.kIOScaleRotate180 < 2 ^ 16 ∧ k.kIOScaleRotate270 < 2 ^ 16)
    (hdistinct : [k.kIOScaleRotate0, k.kIOScaleRotate90, k.kIOScaleRotate180,
      k.kIOScaleRotate270].Nodup) :
    angle2options k 0 = some (kIOFBSetTransform ||| (k.kIOScaleRotate0 <<< 16)) ∧
    angle2options k 90 = some (kIOFBSetTransform ||| (k.kIOScaleRotate90 <<< 16)) ∧
    angle2options k 180 = some (kIOFBSetTransform ||| (k.kIOScaleRotate180 <<< 16)) ∧
    angle2options k 270 = some (kIOFBSetTransform ||| (k.kIOScaleRotate270 <<< 16)) ∧
    ([0, 90, 180, 270].map (angle2options k)).Nodup ∧
    ∀ (p : Platform) (opts : List Opt) (targetDisplay : Nat) (angle : Int),
      angle ∈ [0, 90, 180, 270] →
      (main_loop p opts 0 0).res = .ret (targetDisplay, angle) →
      (∀ d o, Event.IOServiceRequestProbe d o ∈ (main k p opts).trace →
        d = targetDisplay ∧ angle2options k angle = some o) ∧
      (targetDisplay ≠ 0 → p.onlineErr = kCGErrorSuccess → targetDisplay ∈ enumerated p →
        ∃ o, angle2options k angle = some o ∧
          Event.IOServiceRequestProbe targetDisplay o ∈ (main k p opts).trace) := by
  obtain ⟨b0, b90, b180, b270⟩ := hbound
  have e0 := angle2options_zero k
  have e90 := angle2options_90 k
  have e180 := angle2options_180 k
  have e270 := angle2options_270 k
  rw [option_mod _ b0] at e0
  rw [option_mod _ b90] at e90
  rw [option_mod _ b180] at e180
  rw [option_mod _ b270] at e270
  refine ⟨e0, e90, e180, e270, ?_, ?_⟩
  · simp only [List.map_cons, List.map_nil, e0, e90, e180, e270]
    simp only [List.nodup_cons, List.mem_cons, List.mem_singleton, List.not_mem_nil,
      not_or, List.nodup_nil, and_true, not_false_eq_true] at hdistinct ⊢
    obtain ⟨⟨h1, h2, h3⟩, ⟨h4, h5⟩, h6⟩ := hdistinct
    have inj : ∀ a b : Nat, a ≠ b →
        ¬ some (kIOFBSetTransform ||| (a <<< 16)) = some (kIOFBSetTransform ||| (b <<< 16)) :=
      fun a b hab h => hab (option_inj a b (Option.some.inj h))
    exact ⟨⟨inj _ _ h1, inj _ _ h2, inj _ _ h3⟩, ⟨inj _ _ h4, inj _ _ h5⟩, inj _ _ h6⟩
  · intro p opts targetDisplay angle hangle hloop
    have hne : angle ≠ 1 := by
      intro h
      subst h
      simp at hangle
    have htog := main_toggle_of_ne p targetDisplay angle hne
    refine ⟨?_, ?_⟩
    · intro d o he
      have h := main_probe k p opts targetDisplay angle hloop d o he
      rw [htog] at h
      exact ⟨h.1, h.2.2⟩
    · intro h0 herr hmem
      have hsome : ∃ o, angle2options k angle = some o := by
        simp only [List.mem_cons, List.mem_singleton, List.not_mem_nil, or_false] at hangle
        rcases hangle with h | h | h | h <;> subst h
        · exact ⟨_, e0⟩
        · exact ⟨_, e90⟩
        · exact ⟨_, e180⟩
        · exact ⟨_, e270⟩
      obtain ⟨o, ho⟩ := hsome
      refine ⟨o, ho, main_probe_exists k p opts targetDisplay angle o hloop h0 herr hmem ?_⟩
      rw [htog]
      exact ho

/-- Witness of C1: the constants of the IOGraphics header, and a rotation of
the external display of the desk by 180 degrees. -/
theorem angle2options_table_witness :
    angle2options ioGraphicsScale 90 =
      some (kIOFBSetTransform ||| (ioGraphicsScale.kIOScaleRotate90 <<< 16)) ∧
    ([0, 90, 180, 270].map (angle2options ioGraphicsScale)).Nodup ∧
    ∃ o, angle2options ioGraphicsScale 180 = some o ∧
      Event.IOServiceRequestProbe 5 o ∈ (main ioGraphicsScale desk [.d 5, .r 180]).trace :=
  have h := angle2options_table ioGraphicsScale (by decide) (by decide)
  ⟨h.2.1, h.2.2.2.2.1,
    (h.2.2.2.2.2 desk [.d 5, .r 180] 5 180 (by decide) (by decide)).2
      (by decide) (by decide) (by decide)⟩

/-- C3. The toggle: the angle 1 is replaced, before `angle2options` is called,
by 90 when the current rotation of the target is 0 and by 0 otherwise, so the
rotation request with the angle 1 is the request with that angle.  In `main`,
when the option loop ends with the angle 1, every probe request goes to the
target with the 90-degree option in the first case and the no-rotation option
otherwise, and it is issued as soon as the target is enumerated. -/
theorem main_toggle_sentinel (k : ScaleRotate) (p : Platform) (targetDisplay : Nat) :
    main_toggle p targetDisplay 1 = (if p.rotation targetDisplay = 0 then 90 else 0) ∧
    main_rotate k p targetDisplay 1 =
      main_rotate k p targetDisplay (if p.rotation targetDisplay = 0 then 90 else 0) ∧
    ∀ opts : List Opt, (main_loop p opts 0 0).res = .ret (targetDisplay, 1) →
      (∀ d o, Event.IOServiceRequestProbe d o ∈ (main k p opts).trace →
        d = targetDisplay ∧
        o = if p.rotation targetDisplay = 0
          then (kIOFBSetTransform ||| (k.kIOScaleRotate90 <<< 16)) % 2 ^ 32
          else (kIOFBSetTransform ||| (k.kIOScaleRotate0 <<< 16)) % 2 ^ 32) ∧
      (targetDisplay ≠ 0 → p.onlineErr = kCGErrorSuccess → targetDisplay ∈ enumerated p →
        Event.IOServiceRequestProbe targetDisplay
          (if p.rotation targetDisplay = 0
            then (kIOFBSetTransform ||| (k.kIOScaleRotate90 <<< 16)) % 2 ^ 32
            else (kIOFBSetTransform ||| (k.kIOScaleRotate0 <<< 16)) % 2 ^ 32)
          ∈ (main k p opts).trace) := by
  have htog : main_toggle p targetDisplay 1 = (if p.rotation targetDisplay = 0 then 90 else 0) := by
    simp [main_toggle]
  have hopt : angle2options k (main_toggle p targetDisplay 1) =
      some (if p.rotation targetDisplay = 0
        then (kIOFBSetTransform ||| (k.kIOScaleRotate90 <<< 16)) % 2 ^ 32
        else (kIOFBSetTransform ||| (k.kIOScaleRotate0 <<< 16)) % 2 ^ 32) := by
    rw [htog]
    by_cases hr : p.rotation targetDisplay = 0
    · simp only [hr, if_true]
      exact angle2options_90 k
    · simp only [hr, if_false]
      exact angle2options_zero k
  refine ⟨htog, ?_, ?_⟩
  · have h2 : main_toggle p targetDisplay (if p.rotation targetDisplay = 0 then 90 else 0) =
        main_toggle p targetDisplay 1 := by
      rw [htog]
      by_cases hr : p.rotation targetDisplay = 0
      · simp [hr, main_toggle]
      · simp [hr, main_toggle]
    rw [main_rotate_eq, main_rotate_eq, h2]
  · intro opts hloop
    refine ⟨?_, ?_⟩
    · intro d o he
      have h := main_probe k p opts targetDisplay 1 hloop d o he
      refine ⟨h.1, ?_⟩
      have h3 := h.2.2
      rw [hopt] at h3
      exact (Option.some.inj h3).symm
    · intro h0 herr hmem
      exact main_probe_exists k p opts targetDisplay 1 _ hloop h0 herr hmem hopt

/-- Witness of C3: on the desk the external display is not rotated and the
toggle asks for 90 degrees; once it is rotated the toggle asks for 0. -/
theorem main_toggle_sentinel_witness :
    Event.IOServiceRequestProbe 5 0x300400 ∈ (main ioGraphicsScale desk [.d 5, .r 1]).trace ∧
    Event.IOServiceRequestProbe 5 0x400 ∈
      (main ioGraphicsScale rotatedDesk [.d 5, .r 1]).trace :=
  ⟨((main_toggle_sentinel ioGraphicsScale desk 5).2.2 [.d 5, .r 1] (by decide)).2
      (by decide) (by decide) (by decide),
   ((main_toggle_sentinel ioGraphicsScale rotatedDesk 5).2.2 [.d 5, .r 1] (by decide)).2
      (by decide) (by decide) (by decide)⟩

/-- C9. `cgIDfromU32` is a membership check on the enumerated list.  The test
of its loop, with the four comparisons, is the single test `dID == preId`; the
function is the check the specification words; an ID that occurs in the list
is returned unchanged; for an ID that does not occur the function exits with
status 1 and the rotation request exits or stops without any call on a service
port.  So every `CGDisplayIOServicePort` and `IOServiceRequestProbe` of `main`
is for an enumerated display. -/
theorem cgIDfromU32_membership (p : Platform) (preId : Nat) :
    (∀ dID, cgIDfromU32_test dID dID preId preId = (dID == preId)) ∧
    cgIDfromU32 p preId = cgIDfromU32_spec p preId ∧
    (p.onlineErr = kCGErrorSuccess → preId ∈ enumerated p →
      cgIDfromU32 p preId = ⟨[.CGGetOnlineDisplayList], .ret preId⟩) ∧
    (preId ∉ enumerated p →
      (cgIDfromU32 p preId).res = .exit 1 ∧
      ∀ (k : ScaleRotate) (angle : Int), ServiceFree (main_rotate k p preId angle) ∧
        (main_rotate k p preId angle).res ≠ .exit 0) ∧
    ∀ (k : ScaleRotate) (opts : List Opt) (d : Nat),
      (Event.CGDisplayIOServicePort d ∈ (main k p opts).trace → d ∈ enumerated p) ∧
      (∀ o, Event.IOServiceRequestProbe d o ∈ (main k p opts).trace → d ∈ enumerated p) := by
  refine ⟨fun dID => cgIDfromU32_test_eq dID preId, ?_, ?_, ?_, ?_⟩
  · rw [cgIDfromU32_eq, cgIDfromU32_spec_eq]
  · intro herr hmem
    rw [cgIDfromU32_eq]
    simp [herr, hmem]
  · intro habs
    refine ⟨?_, ?_⟩
    · rw [cgIDfromU32_eq]
      by_cases herr : p.onlineErr = kCGErrorSuccess
      · simp [herr, habs]
      · simp [herr]
    · intro k angle
      refine ⟨?_, ?_⟩
      · intro e he
        by_contra hs
        have hs2 : e.isService = true := by simpa using hs
        exact habs (main_rotate_service k p preId angle e he hs2).1
      · rw [main_rotate_eq]
        by_cases h0 : preId = 0
        · simp [h0]
        · cases hopt : angle2options k (main_toggle p preId angle) with
          | none => simp [h0]
          | some options =>
            by_cases herr : p.onlineErr = kCGErrorSuccess
            · simp [h0, herr, habs]
            · simp [h0, herr]
  · intro k opts d
    refine ⟨?_, ?_⟩
    · intro he
      obtain ⟨t, a, _, hmem⟩ := main_service k p opts _ he rfl
      obtain ⟨hen, options, _, hcase⟩ := main_rotate_service k p _ _ _ hmem rfl
      rcases hcase with h | h
      · injection h with h1
        rw [h1]
        exact hen
      · exact absurd h (by simp)
    · intro o he
      obtain ⟨t, a, hres, _⟩ := main_service k p opts _ he rfl
      have h := main_probe k p opts t a hres d o he
      rw [h.1]
      exact h.2.1

/-- Witness of C9: on the desk the display `5` is returned, the display `9`
is refused, and the probe of a rotation of `5` is for an enumerated display. -/
theorem cgIDfromU32_membership_witness :
    cgIDfromU32 desk 5 = ⟨[.CGGetOnlineDisplayList], .ret 5⟩ ∧
    (cgIDfromU32 desk 9).res = .exit 1 ∧
    5 ∈ enumerated desk :=
  ⟨(cgIDfromU32_membership desk 5).2.2.1 (by decide) (by decide),
   ((cgIDfromU32_membership desk 9).2.2.2.1 (by decide)).1,
   ((cgIDfromU32_membership desk 5).2.2.2.2 ioGraphicsScale [.d 5, .r 90] 5).2 0x300400
     (by decide)⟩

/-- C4 fails when an enumerated display has the ID 1.  On the desk the
built-in panel is display `1` and is the main display: `InternalID` finds it,
but `-d -1` (the value `0xFFFFFFFF` after the cast) and `-d 0` both run on
into the test for the shortcut 1 and resolve to the external display `5`. -/
theorem main_d_shortcut_collision :
    desk.builtin 1 = true ∧ desk.builtin 5 = false ∧ desk.mainDisplay = 1 ∧
    InternalID desk = ⟨[.CGGetOnlineDisplayList], .ret 1⟩ ∧
    main_d desk (2 ^ 64 - 1) =
      ⟨[.CGGetOnlineDisplayList, .CGGetOnlineDisplayList], .ret 5⟩ ∧
    main_d desk 0 = ⟨[.CGGetOnlineDisplayList], .ret 5⟩ := by
  decide

/-! ## The shortcuts of `-d` when no display ID is itself 0 or 1 -/

theorem InternalID_loop_eq (p : Platform) (fallbackID : Nat) (l : List Nat) :
    InternalID_loop p fallbackID l = (l.find? p.builtin).getD fallbackID := by
  induction l with
  | nil => rfl
  | cons dID rest ih =>
    by_cases h : p.builtin dID = true
    · simp [InternalID_loop, List.find?, h]
    · simp [InternalID_loop, List.find?, h, ih]

theorem nonInternalID_loop_eq (p : Platform) (fallbackID : Nat) (l : List Nat) :
    nonInternalID_loop p fallbackID l =
      (l.find? (fun dID => !(p.builtin dID) && p.active dID)).getD fallbackID := by
  induction l with
  | nil => rfl
  | cons dID rest ih =>
    by_cases h : (!(p.builtin dID) && p.active dID) = true
    · simp only [nonInternalID_loop, List.find?, h, if_true, Option.getD_some]
    · simp only [nonInternalID_loop, List.find?, h, ih]
      simp

theorem main_d_internal (p : Platform) (optarg x : Nat) (harg : optarg % 2 ^ 32 = 2 ^ 32 - 1)
    (herr : p.onlineErr = kCGErrorSuccess) (hfind : (enumerated p).find? p.builtin = some x)
    (h0 : x ≠ 0) (h1 : x ≠ 1) :
    main_d p optarg = ⟨[.CGGetOnlineDisplayList], .ret x⟩ := by
  have hfind2 : List.find? p.builtin (List.take MAX_DISPLAYS p.online) = some x := hfind
  have harg2 : optarg % 4294967296 = 4294967295 := harg
  simp [main_d, harg2, InternalID, CGGetOnlineDisplayList, herr, InternalID_loop_eq, hfind2,
    h0, h1]

theorem main_d_main (p : Platform) (optarg : Nat) (harg : optarg % 2 ^ 32 = 0)
    (h1 : p.mainDisplay ≠ 1) :
    main_d p optarg = ⟨[], .ret p.mainDisplay⟩ := by
  have harg2 : optarg % 4294967296 = 0 := harg
  simp [main_d, harg2, h1]

theorem main_d_external (p : Platform) (optarg x : Nat) (harg : optarg % 2 ^ 32 = 1)
    (herr : p.onlineErr = kCGErrorSuccess)
    (hfind : (enumerated p).find? (fun dID => !(p.builtin dID) && p.active dID) = some x)
    (h0 : x ≠ 0) :
    main_d p optarg = ⟨[.CGGetOnlineDisplayList], .ret x⟩ := by
  have hfind2 : List.find? (fun dID => !(p.builtin dID) && p.active dID)
      (List.take MAX_DISPLAYS p.online) = some x := hfind
  have harg2 : optarg % 4294967296 = 1 := harg
  simp [main_d, harg2, nonInternalID, CGGetOnlineDisplayList, herr, nonInternalID_loop_eq,
    hfind2, h0]

theorem main_d_no_external (p : Platform) (optarg : Nat) (harg : optarg % 2 ^ 32 = 1)
    (herr : p.onlineErr = kCGErrorSuccess)
    (hfind : (enumerated p).find? (fun dID => !(p.builtin dID) && p.active dID) = none) :
    main_d p optarg =
      ⟨[.CGGetOnlineDisplayList, .stderr .noActiveMonitor], .exit 1⟩ := by
  have hfind2 : List.find? (fun dID => !(p.builtin dID) && p.active dID)
      (List.take MAX_DISPLAYS p.online) = none := hfind
  have harg2 : optarg % 4294967296 = 1 := harg
  simp [main_d, harg2, nonInternalID, CGGetOnlineDisplayList, herr, nonInternalID_loop_eq,
    hfind2, emit, exit]

theorem main_d_other (p : Platform) (optarg : Nat) (hm : optarg % 2 ^ 32 ≠ 2 ^ 32 - 1)
    (h0 : optarg % 2 ^ 32 ≠ 0) (h1 : optarg % 2 ^ 32 ≠ 1) :
    main_d p optarg = ⟨[], .ret (optarg % 2 ^ 32)⟩ := by
  have hm2 : optarg % 4294967296 ≠ 4294967295 := hm
  have h02 : optarg % 4294967296 ≠ 0 := h0
  have h12 : optarg % 4294967296 ≠ 1 := h1
  simp [main_d, hm2, h02, h12]

/-! ## Failing enumerations and probes -/

theorem listDisplays_enumeration_failure (p : Platform) (h : p.onlineErr ≠ kCGErrorSuccess) :
    listDisplays p =
      ⟨[.CGGetOnlineDisplayList, .stderr (.onlineListError p.onlineErr)], .exit 1⟩ := by
  simp [listDisplays, CGGetOnlineDisplayList, h, emit, exit]

theorem infoDisplays_enumeration_failure (p : Platform) (h : p.onlineErr ≠ kCGErrorSuccess) :
    infoDisplays p =
      ⟨[.CGGetOnlineDisplayList, .stderr (.onlineListError p.onlineErr)], .exit 1⟩ := by
  simp [infoDisplays, CGGetOnlineDisplayList, h, emit, exit]

theorem main_rotate_probe_failure (k : ScaleRotate) (p : Platform) (targetDisplay : Nat)
    (angle : Int) (options : Nat) (h0 : targetDisplay ≠ 0)
    (hopt : angle2options k (main_toggle p targetDisplay angle) = some options)
    (herr : p.onlineErr = kCGErrorSuccess) (hmem : targetDisplay ∈ enumerated p)
    (hprobe : p.probeErr targetDisplay options ≠ kCGErrorSuccess) :
    main_rotate k p targetDisplay angle =
      ⟨[.CGGetOnlineDisplayList, .CGDisplayIOServicePort targetDisplay,
        .IOServiceRequestProbe targetDisplay options,
        .stderr (.probeError (p.probeErr targetDisplay options))], .exit 1⟩ := by
  rw [main_rotate_eq]
  simp [h0, hopt, herr, hmem, hprobe]

end FbRotate
